import Mathlib

/-
Verification of the gRPC <-> DataFusion physical-expression codec
(`src/common/grpc/src/physical/expr.rs`) and of the PyRecordBatch
mapping-protocol adapter (`src/script/src/python/ffi_types/py_recordbatch.rs`).

The codec converts between:
  * the wire form `api::v1::codec::PhysicalExprNode` (a protobuf message whose
    `expr_type` field is an optional tagged union), and
  * the in-process form `Arc<dyn DfPhysicalExpr>` (DataFusion physical
    expressions, discriminated at runtime by downcasting).

Embedding conventions:
  * Protobuf `Option<Box<PhysicalExprNode>>` / `Option<PhysicalExprNode>`
    fields are embedded as the mutually-inductive `OptNode`; the repeated
    `PhysicalWhenThen` field (a pair of optional nodes) as `WhenThenList`.
    These are isomorphic to `Option _` and `List (Option _ × Option _)` but
    declared in the same mutual block so that all codec functions are
    compiled by structural recursion (hence compute by `rfl`).
  * The wrapper struct `PhysicalExprNode { expr_type: Option<ExprType> }` is
    flattened: the `None` tag becomes the constructor
    `PhysicalExprNode.empty`, and each `ExprType` variant becomes a
    constructor carrying the fields of its protobuf payload message.
  * `usize` and `u64` are both 64 bits wide on the supported targets; the
    casts `index as u64` (encode) and `index as usize` (decode) are embedded
    as `% 2 ^ 64`, the machine width at the boundary.
  * Rust `Result<T, Error>` becomes `Except Error T`; each `?` early return
    is an explicit match on the intermediate result, in source order.
-/

namespace GrpcPhysical

/-- The fixed operator set `datafusion::logical_plan::Operator`, restricted to
the variants the codec's table (`from_proto_binary_op`) maps. -/
inductive Operator : Type where
  | And
  | Or
  | Eq
  | NotEq
  | LtEq
  | Lt
  | Gt
  | GtEq
  | Plus
  | Minus
  | Multiply
  | Divide
  | Modulo
  | Like
  | NotLike
deriving DecidableEq

/-- Rust's derived `Debug` for `Operator` prints exactly the variant name;
this models `format!("{:?}", expr.op())` in the encoder's BinaryExpr arm. -/
def Operator.debugFmt : Operator → String
  | .And => "And"
  | .Or => "Or"
  | .Eq => "Eq"
  | .NotEq => "NotEq"
  | .LtEq => "LtEq"
  | .Lt => "Lt"
  | .Gt => "Gt"
  | .GtEq => "GtEq"
  | .Plus => "Plus"
  | .Minus => "Minus"
  | .Multiply => "Multiply"
  | .Divide => "Divide"
  | .Modulo => "Modulo"
  | .Like => "Like"
  | .NotLike => "NotLike"

mutual
/-- The wire message `api::v1::codec::PhysicalExprNode`.
`empty` is the node whose `expr_type` oneof is unset; the other constructors
are the `ExprType` variants with the fields of their payload messages
(`PhysicalColumn`, `PhysicalIsNull`, `PhysicalIsNotNull`, `PhysicalNot`,
`PhysicalBinaryExprNode`, `PhysicalCaseNode`). `index` is the `u64` field of
`PhysicalColumn`. -/
inductive PhysicalExprNode : Type where
  | empty
  | Column (name : String) (index : Nat)
  | IsNullExpr (expr : OptNode)
  | IsNotNullExpr (expr : OptNode)
  | NotExpr (expr : OptNode)
  | BinaryExpr (l : OptNode) (r : OptNode) (op : String)
  | Case (expr : OptNode) (when_then_expr : WhenThenList) (else_expr : OptNode)

/-- An optional child node (`Option<Box<PhysicalExprNode>>` /
`Option<PhysicalExprNode>` on the wire). -/
inductive OptNode : Type where
  | none
  | some (e : PhysicalExprNode)

/-- The repeated `PhysicalWhenThen` field of `PhysicalCaseNode`: an ordered
sequence of pairs of optional `when_expr` / `then_expr` nodes. -/
inductive WhenThenList : Type where
  | nil
  | cons (when_expr : OptNode) (then_expr : OptNode) (rest : WhenThenList)
end

mutual
/-- The in-process expression tree: the closed variant set the codec handles
(`datafusion` `Column`, `IsNullExpr`, `IsNotNullExpr`, `NotExpr`,
`BinaryExpr`, `CaseExpr`), plus `other`, which stands for any concrete
`PhysicalExpr` implementation outside that closed set; `other` carries the
string its `Display` implementation would render (`df_expr.to_string()`). -/
inductive DfExpr : Type where
  | Column (name : String) (index : Nat)
  | IsNullExpr (arg : DfExpr)
  | IsNotNullExpr (arg : DfExpr)
  | NotExpr (arg : DfExpr)
  | BinaryExpr (left : DfExpr) (op : Operator) (right : DfExpr)
  | Case (expr : OptDfExpr) (when_then_expr : WhenThenPairs) (else_expr : OptDfExpr)
  | other (display : String)

/-- An optional in-process subexpression (`CaseExpr`'s base and else). -/
inductive OptDfExpr : Type where
  | none
  | some (e : DfExpr)

/-- `CaseExpr`'s ordered `(when, then)` branch list. -/
inductive WhenThenPairs : Type where
  | nil
  | cons (when_e : DfExpr) (then_e : DfExpr) (rest : WhenThenPairs)
end

/-- The error variants of `common_grpc::error::Error` the codec produces:
`EmptyPhysicalExpr { name }`, `MissingField { field }`,
`UnsupportedBinaryOp { op }`, `NewCase { source }` (carrying the engine
error), `UnsupportedDfExpr { name }`. -/
inductive Error : Type where
  | EmptyPhysicalExpr (name : String)
  | MissingField (field : String)
  | UnsupportedBinaryOp (op : String)
  | NewCase (msg : String)
  | UnsupportedDfExpr (name : String)
deriving DecidableEq

/-- The machine width of `u64` (and of `usize` on the supported 64-bit
targets): casts between the two are embedded as `% u64Mod`. -/
def u64Mod : Nat := 2 ^ 64

/-- The `format!("{:?}", proto)` rendering attached to the EmptyPhysicalExpr
error. It is only ever produced for the node whose `expr_type` is `None`,
whose derived-`Debug` rendering is this fixed string. -/
def emptyNodeDebug : String := "PhysicalExprNode \x7b expr_type: None \x7d"

/-- The decoder's operator table `from_proto_binary_op`: the fifteen wire
tokens, in source order, with any other token rejected. -/
def from_proto_binary_op : String → Except Error Operator
  | "And" => .ok .And
  | "Or" => .ok .Or
  | "Eq" => .ok .Eq
  | "NotEq" => .ok .NotEq
  | "LtEq" => .ok .LtEq
  | "Lt" => .ok .Lt
  | "Gt" => .ok .Gt
  | "GtEq" => .ok .GtEq
  | "Plus" => .ok .Plus
  | "Minus" => .ok .Minus
  | "Multiply" => .ok .Multiply
  | "Divide" => .ok .Divide
  | "Modulo" => .ok .Modulo
  | "Like" => .ok .Like
  | "NotLike" => .ok .NotLike
  | other => .error (.UnsupportedBinaryOp other)

/-- Emptiness test for a branch list. -/
def WhenThenPairs.isEmpty : WhenThenPairs → Bool
  | .nil => true
  | .cons _ _ _ => false

/-- Modelled from the spec: the engine constructor `CaseExpr::try_new` (in
the external `datafusion` crate, not under `src/`) enforces the in-process
representation's construction invariant on `Case` nodes — the spec's
VariantConstructionFailure — rejecting an empty branch list and otherwise
assembling the node from base, branches and else-expression. -/
def CaseExpr_try_new (e : OptDfExpr) (wt : WhenThenPairs) (els : OptDfExpr) :
    Except String DfExpr :=
  if wt.isEmpty then .error "There must be at least one WHEN clause"
  else .ok (.Case e wt els)

mutual
/-- The decoder `parse_grpc_physical_expr` (grpc -> datafusion), arm by arm:
empty oneof fails with EmptyPhysicalExpr carrying the `Debug` rendering of
the input; Column builds `DfColumn::new(&name, index as usize)`; the unary
wrappers and BinaryExpr resolve required children via
`parse_required_physical_box_expr` (left child first, then right, then the
operator token); Case decodes the optional base, then every branch pair in
order, then the optional else, and finally runs `CaseExpr::try_new`,
wrapping its failure in NewCase. -/
def parse_grpc_physical_expr : PhysicalExprNode → Except Error DfExpr
  | .empty => .error (.EmptyPhysicalExpr emptyNodeDebug)
  | .Column name index => .ok (.Column name (index % u64Mod))
  | .IsNullExpr e =>
      match parse_required_physical_box_expr e with
      | .error err => .error err
      | .ok c => .ok (.IsNullExpr c)
  | .IsNotNullExpr e =>
      match parse_required_physical_box_expr e with
      | .error err => .error err
      | .ok c => .ok (.IsNotNullExpr c)
  | .NotExpr e =>
      match parse_required_physical_box_expr e with
      | .error err => .error err
      | .ok c => .ok (.NotExpr c)
  | .BinaryExpr l r op =>
      match parse_required_physical_box_expr l with
      | .error err => .error err
      | .ok lc =>
        match parse_required_physical_box_expr r with
        | .error err => .error err
        | .ok rc =>
          match from_proto_binary_op op with
          | .error err => .error err
          | .ok o => .ok (.BinaryExpr lc o rc)
  | .Case e wt els =>
      match parse_optional_expr e with
      | .error err => .error err
      | .ok e2 =>
        match parse_when_then_list wt with
        | .error err => .error err
        | .ok wt2 =>
          match parse_optional_expr els with
          | .error err => .error err
          | .ok els2 =>
            match CaseExpr_try_new e2 wt2 els2 with
            | .error m => .error (.NewCase m)
            | .ok c => .ok c

/-- `parse_required_physical_box_expr`: a present child is decoded (its error
propagating first), an absent child fails with `MissingField { field: "expr" }`. -/
def parse_required_physical_box_expr : OptNode → Except Error DfExpr
  | .some e => parse_grpc_physical_expr e
  | .none => .error (.MissingField "expr")

/-- `parse_required_physical_expr`: identical to the boxed variant (the
`Box` is a Rust representation detail), used for Case branch children. -/
def parse_required_physical_expr : OptNode → Except Error DfExpr
  | .some e => parse_grpc_physical_expr e
  | .none => .error (.MissingField "expr")

/-- The `expr.as_ref().map(parse).transpose()?` pattern on Case's optional
base/else children: absent stays absent, present decodes or propagates. -/
def parse_optional_expr : OptNode → Except Error OptDfExpr
  | .none => .ok .none
  | .some e =>
      match parse_grpc_physical_expr e with
      | .error err => .error err
      | .ok c => .ok (.some c)

/-- The branch-list decode: `when_then_expr.iter().map(...).collect::<Result<Vec,_>>()`
decodes `when_expr` then `then_expr` of each pair, left to right,
short-circuiting on the first failure and preserving order. -/
def parse_when_then_list : WhenThenList → Except Error WhenThenPairs
  | .nil => .ok .nil
  | .cons w t rest =>
      match parse_required_physical_expr w with
      | .error err => .error err
      | .ok w2 =>
        match parse_required_physical_expr t with
        | .error err => .error err
        | .ok t2 =>
          match parse_when_then_list rest with
          | .error err => .error err
          | .ok rest2 => .ok (.cons w2 t2 rest2)
end

mutual
/-- The encoder `parse_df_physical_expr` (datafusion -> grpc), following the
source's downcast chain: Column copies name and widens the index to u64; the
unary wrappers and BinaryExpr recursively encode children and wrap them as
present (`Some`) wire fields, BinaryExpr rendering the operator via
`format!("{:?}", op)`; Case encodes the optional base, then the optional
else, then every branch pair in order; any variant outside the closed set
fails with UnsupportedDfExpr carrying the node's `Display` rendering. -/
def parse_df_physical_expr : DfExpr → Except Error PhysicalExprNode
  | .Column name index => .ok (.Column name (index % u64Mod))
  | .IsNullExpr arg =>
      match parse_df_physical_expr arg with
      | .error err => .error err
      | .ok node => .ok (.IsNullExpr (.some node))
  | .IsNotNullExpr arg =>
      match parse_df_physical_expr arg with
      | .error err => .error err
      | .ok node => .ok (.IsNotNullExpr (.some node))
  | .NotExpr arg =>
      match parse_df_physical_expr arg with
      | .error err => .error err
      | .ok node => .ok (.NotExpr (.some node))
  | .BinaryExpr left op right =>
      match parse_df_physical_expr left with
      | .error err => .error err
      | .ok l =>
        match parse_df_physical_expr right with
        | .error err => .error err
        | .ok r => .ok (.BinaryExpr (.some l) (.some r) op.debugFmt)
  | .Case e wt els =>
      match encode_optional_expr e with
      | .error err => .error err
      | .ok e2 =>
        match encode_optional_expr els with
        | .error err => .error err
        | .ok els2 =>
          match encode_when_then_list wt with
          | .error err => .error err
          | .ok wt2 => .ok (.Case e2 wt2 els2)
  | .other display => .error (.UnsupportedDfExpr display)

/-- The `expr().as_ref().map(|e| parse(e).map(Box::new)).transpose()?`
pattern on Case's optional base/else subexpressions. -/
def encode_optional_expr : OptDfExpr → Except Error OptNode
  | .none => .ok .none
  | .some e =>
      match parse_df_physical_expr e with
      | .error err => .error err
      | .ok n => .ok (.some n)

/-- The encoder's branch loop: each `(when, then)` pair is encoded in order
and pushed as a `PhysicalWhenThen` with both fields present. -/
def encode_when_then_list : WhenThenPairs → Except Error WhenThenList
  | .nil => .ok .nil
  | .cons w t rest =>
      match parse_df_physical_expr w with
      | .error err => .error err
      | .ok wn =>
        match parse_df_physical_expr t with
        | .error err => .error err
        | .ok tn =>
          match encode_when_then_list rest with
          | .error err => .error err
          | .ok rest2 => .ok (.cons (.some wn) (.some tn) rest2)
end

mutual
/-- Constructibility of an in-process tree: built only from the supported
closed variant set (no `other` node), every `Column` index a `usize` value
(hence below `2 ^ 64`), and every `Case` node's branch list nonempty (the
engine's `CaseExpr::try_new` rejects empty branch lists, so no in-process
tree with an empty `Case` can be built). -/
def DfExpr.wf : DfExpr → Bool
  | .Column _ index => decide (index < u64Mod)
  | .IsNullExpr a => a.wf
  | .IsNotNullExpr a => a.wf
  | .NotExpr a => a.wf
  | .BinaryExpr l _ r => l.wf && r.wf
  | .Case e wt els => wfOpt e && !wt.isEmpty && wfPairs wt && wfOpt els
  | .other _ => false

/-- Constructibility of an optional subexpression. -/
def wfOpt : OptDfExpr → Bool
  | .none => true
  | .some e => e.wf

/-- Constructibility of every expression in a branch list. -/
def wfPairs : WhenThenPairs → Bool
  | .nil => true
  | .cons w t rest => w.wf && t.wf && wfPairs rest
end

/-- The fixed operator token vocabulary of the wire format. -/
def opVocab : List String :=
  ["And", "Or", "Eq", "NotEq", "LtEq", "Lt", "Gt", "GtEq",
   "Plus", "Minus", "Multiply", "Divide", "Modulo", "Like", "NotLike"]

/-- The encoder's rendering of each operator is exactly the token the decoder
table maps back to that operator. -/
theorem from_proto_binary_op_debugFmt (o : Operator) :
    from_proto_binary_op o.debugFmt = .ok o := by
  cases o <;> rfl

/-- A token outside the vocabulary falls through every arm of the decoder's
operator table to the rejecting catch-all. -/
theorem from_proto_binary_op_unknown (tok : String) (h : tok ∉ opVocab) :
    from_proto_binary_op tok = .error (.UnsupportedBinaryOp tok) := by
  unfold from_proto_binary_op
  split
  all_goals first
    | rfl
    | exact absurd (by decide) h

mutual
/-- Encoding a constructible in-process tree succeeds, and decoding the
resulting wire node reproduces the tree exactly. -/
theorem roundtrip_expr (t : DfExpr) (h : t.wf = true) :
    ∃ w, parse_df_physical_expr t = .ok w ∧ parse_grpc_physical_expr w = .ok t := by
  match t with
  | .Column name index =>
      have hlt : index < u64Mod := by simpa [DfExpr.wf] using h
      exact ⟨.Column name index,
        by simp [parse_df_physical_expr, Nat.mod_eq_of_lt hlt],
        by simp [parse_grpc_physical_expr, Nat.mod_eq_of_lt hlt]⟩
  | .IsNullExpr a =>
      obtain ⟨w, he, hd⟩ := roundtrip_expr a (by simpa [DfExpr.wf] using h)
      exact ⟨.IsNullExpr (.some w),
        by simp [parse_df_physical_expr, he],
        by simp [parse_grpc_physical_expr, parse_required_physical_box_expr, hd]⟩
  | .IsNotNullExpr a =>
      obtain ⟨w, he, hd⟩ := roundtrip_expr a (by simpa [DfExpr.wf] using h)
      exact ⟨.IsNotNullExpr (.some w),
        by simp [parse_df_physical_expr, he],
        by simp [parse_grpc_physical_expr, parse_required_physical_box_expr, hd]⟩
  | .NotExpr a =>
      obtain ⟨w, he, hd⟩ := roundtrip_expr a (by simpa [DfExpr.wf] using h)
      exact ⟨.NotExpr (.some w),
        by simp [parse_df_physical_expr, he],
        by simp [parse_grpc_physical_expr, parse_required_physical_box_expr, hd]⟩
  | .BinaryExpr l op r =>
      have hlr : l.wf = true ∧ r.wf = true := by
        simpa [DfExpr.wf, Bool.and_eq_true] using h
      obtain ⟨wl, hel, hdl⟩ := roundtrip_expr l hlr.1
      obtain ⟨wr, her, hdr⟩ := roundtrip_expr r hlr.2
      exact ⟨.BinaryExpr (.some wl) (.some wr) op.debugFmt,
        by simp [parse_df_physical_expr, hel, her],
        by simp [parse_grpc_physical_expr, parse_required_physical_box_expr,
                 hdl, hdr, from_proto_binary_op_debugFmt]⟩
  | .Case e wt els =>
      have hparts : wfOpt e = true ∧ wt.isEmpty = false ∧ wfPairs wt = true
          ∧ wfOpt els = true := by
        simp only [DfExpr.wf, Bool.and_eq_true, Bool.not_eq_true'] at h
        exact ⟨h.1.1.1, h.1.1.2, h.1.2, h.2⟩
      obtain ⟨we, hee, hde⟩ := roundtrip_opt e hparts.1
      obtain ⟨wwt, hewt, hdwt⟩ := roundtrip_pairs wt hparts.2.2.1
      obtain ⟨wels, heels, hdels⟩ := roundtrip_opt els hparts.2.2.2
      exact ⟨.Case we wwt wels,
        by simp [parse_df_physical_expr, hee, hewt, heels],
        by simp [parse_grpc_physical_expr, hde, hdwt, hdels,
                 CaseExpr_try_new, hparts.2.1]⟩

/-- Round trip for an optional base/else subexpression. -/
theorem roundtrip_opt (e : OptDfExpr) (h : wfOpt e = true) :
    ∃ w, encode_optional_expr e = .ok w ∧ parse_optional_expr w = .ok e := by
  match e with
  | .none => exact ⟨.none, rfl, rfl⟩
  | .some a =>
      obtain ⟨w, he, hd⟩ := roundtrip_expr a (by simpa [wfOpt] using h)
      exact ⟨.some w,
        by simp [encode_optional_expr, he],
        by simp [parse_optional_expr, hd]⟩

/-- Round trip for a branch list, preserving both the pairs and their order. -/
theorem roundtrip_pairs (l : WhenThenPairs) (h : wfPairs l = true) :
    ∃ w, encode_when_then_list l = .ok w ∧ parse_when_then_list w = .ok l := by
  match l with
  | .nil => exact ⟨.nil, rfl, rfl⟩
  | .cons a b rest =>
      have hparts : (a.wf = true ∧ b.wf = true) ∧ wfPairs rest = true := by
        simpa [wfPairs, Bool.and_eq_true] using h
      obtain ⟨⟨ha, hb⟩, hrest⟩ := hparts
      obtain ⟨wa, hea, hda⟩ := roundtrip_expr a ha
      obtain ⟨wb, heb, hdb⟩ := roundtrip_expr b hb
      obtain ⟨wrest, herest, hdrest⟩ := roundtrip_pairs rest hrest
      exact ⟨.cons (.some wa) (.some wb) wrest,
        by simp [encode_when_then_list, hea, heb, herest],
        by simp [parse_when_then_list, parse_required_physical_expr, hda, hdb, hdrest]⟩
end

/-- Claim C1: for every in-process expression tree built only from the
supported variants (Column, IsNull, IsNotNull, Not, BinaryExpr over the fixed
operator set, Case — captured by `DfExpr.wf`, which also records the engine's
construction invariants: a `usize` column index and nonempty Case branches),
decoding the result of encoding it succeeds and yields a tree equal to the
original: same variant at every node, same field values, same child
structure, and same Case branch order. -/
theorem decode_encode_roundtrip (t : DfExpr) (h : t.wf = true) :
    (parse_df_physical_expr t).bind parse_grpc_physical_expr = .ok t := by
  obtain ⟨w, he, hd⟩ := roundtrip_expr t h
  rw [he]
  exact hd

/-- Witness for C1 at a concrete tree exercising Case, BinaryExpr, IsNull and
Column. -/
theorem decode_encode_roundtrip_witness :
    (DfExpr.Case (.some (.Column "c" 0))
        (.cons (.Column "w" 1) (.BinaryExpr (.Column "a" 2) .Eq (.Column "b" 3)) .nil)
        (.some (.IsNullExpr (.Column "n" 4)))).wf = true
    ∧ (parse_df_physical_expr
          (DfExpr.Case (.some (.Column "c" 0))
            (.cons (.Column "w" 1) (.BinaryExpr (.Column "a" 2) .Eq (.Column "b" 3)) .nil)
            (.some (.IsNullExpr (.Column "n" 4))))).bind parse_grpc_physical_expr
        = .ok (DfExpr.Case (.some (.Column "c" 0))
            (.cons (.Column "w" 1) (.BinaryExpr (.Column "a" 2) .Eq (.Column "b" 3)) .nil)
            (.some (.IsNullExpr (.Column "n" 4)))) :=
  ⟨by decide, decode_encode_roundtrip _ (by decide)⟩

/-- Claim C2: for every operator token in the fixed vocabulary, decoding a
BinaryExpr carrying that token and then encoding the resulting tree
reproduces the identical token string on the wire. -/
theorem op_token_roundtrip (tok : String) (h : tok ∈ opVocab) :
    (parse_grpc_physical_expr
        (.BinaryExpr (.some (.Column "c" 0)) (.some (.Column "c" 0)) tok)).bind
        parse_df_physical_expr
      = .ok (.BinaryExpr (.some (.Column "c" 0)) (.some (.Column "c" 0)) tok) := by
  fin_cases h <;> rfl

/-- Witness for C2 at the token "NotEq". -/
theorem op_token_roundtrip_witness :
    "NotEq" ∈ opVocab
    ∧ (parse_grpc_physical_expr
          (.BinaryExpr (.some (.Column "c" 0)) (.some (.Column "c" 0)) "NotEq")).bind
          parse_df_physical_expr
        = .ok (.BinaryExpr (.some (.Column "c" 0)) (.some (.Column "c" 0)) "NotEq") :=
  ⟨by decide, op_token_roundtrip "NotEq" (by decide)⟩

/-- Claim C3: for every wire BinaryExpr whose op token is not one of the
fifteen vocabulary tokens, decoding fails with UnsupportedBinaryOp naming the
offending token; no unknown token is mapped to any operator. -/
theorem unknown_op_rejected (tok : String) (h : tok ∉ opVocab) :
    parse_grpc_physical_expr
        (.BinaryExpr (.some (.Column "c" 0)) (.some (.Column "c" 0)) tok)
      = .error (.UnsupportedBinaryOp tok) := by
  simp [parse_grpc_physical_expr, parse_required_physical_box_expr,
        from_proto_binary_op_unknown tok h]

/-- Witness for C3 at the token "Xor". -/
theorem unknown_op_rejected_witness :
    "Xor" ∉ opVocab
    ∧ parse_grpc_physical_expr
          (.BinaryExpr (.some (.Column "c" 0)) (.some (.Column "c" 0)) "Xor")
        = .error (.UnsupportedBinaryOp "Xor") :=
  ⟨by decide, unknown_op_rejected "Xor" (by decide)⟩

/-- Claim C4, counterexample to the claim as stated: a BinaryExpr whose `l`
field is absent fails with `MissingField { field: "expr" }` — the error names
the generic child field "expr", not the actually-absent wire field `l`, so
the error does not name the absent field for BinaryExpr. -/
theorem missing_field_name_counterexample :
    parse_grpc_physical_expr
        (.BinaryExpr .none (.some (.Column "c" 0)) "Eq")
      = .error (.MissingField "expr")
    ∧ "expr" ≠ "l" :=
  ⟨rfl, by decide⟩

/-- Claim C4 as amended: for every wire node of kind IsNullExpr,
IsNotNullExpr, NotExpr, or BinaryExpr in which a required child field is
absent, decoding fails with a MissingField error and constructs no node; the
reported field name is always the literal "expr", which is the actual field
name for the three unary variants but not for BinaryExpr's `l`/`r` fields. -/
theorem missing_field_fails :
    parse_grpc_physical_expr (.IsNullExpr .none) = .error (.MissingField "expr")
    ∧ parse_grpc_physical_expr (.IsNotNullExpr .none) = .error (.MissingField "expr")
    ∧ parse_grpc_physical_expr (.NotExpr .none) = .error (.MissingField "expr")
    ∧ (∀ r op, parse_grpc_physical_expr (.BinaryExpr .none r op)
        = .error (.MissingField "expr"))
    ∧ (∀ op, parse_grpc_physical_expr
          (.BinaryExpr (.some (.Column "c" 0)) .none op)
        = .error (.MissingField "expr")) := by
  refine ⟨rfl, rfl, rfl, ?_, ?_⟩
  · intro r op
    rfl
  · intro op
    rfl

/-- Claim C5: encoding a Case node with branch sequence [(A,B),(C,D)] and
then decoding reproduces the branches in the exact original order and
preserves the optional base and else expressions. -/
theorem case_branch_order_roundtrip (A B C D : DfExpr) (e els : OptDfExpr)
    (hA : A.wf = true) (hB : B.wf = true) (hC : C.wf = true) (hD : D.wf = true)
    (he : wfOpt e = true) (hels : wfOpt els = true) :
    (parse_df_physical_expr
        (.Case e (.cons A B (.cons C D .nil)) els)).bind parse_grpc_physical_expr
      = .ok (.Case e (.cons A B (.cons C D .nil)) els) := by
  have hwf : (DfExpr.Case e (.cons A B (.cons C D .nil)) els).wf = true := by
    simp [DfExpr.wf, wfPairs, WhenThenPairs.isEmpty, hA, hB, hC, hD, he, hels]
  obtain ⟨w, henc, hdec⟩ := roundtrip_expr _ hwf
  rw [henc]
  exact hdec

/-- Witness for C5 at concrete branches [(A,B),(C,D)], a base expression and
an else expression E. -/
theorem case_branch_order_roundtrip_witness :
    (parse_df_physical_expr
        (.Case (.some (.Column "base" 9))
          (.cons (.Column "A" 0) (.Column "B" 1)
            (.cons (.Column "C" 2) (.Column "D" 3) .nil))
          (.some (.Column "E" 4)))).bind parse_grpc_physical_expr
      = .ok (.Case (.some (.Column "base" 9))
          (.cons (.Column "A" 0) (.Column "B" 1)
            (.cons (.Column "C" 2) (.Column "D" 3) .nil))
          (.some (.Column "E" 4))) :=
  case_branch_order_roundtrip (.Column "A" 0) (.Column "B" 1) (.Column "C" 2)
    (.Column "D" 3) (.some (.Column "base" 9)) (.some (.Column "E" 4))
    (by decide) (by decide) (by decide) (by decide) (by decide) (by decide)

/-- Claim C6: encoding a Column reproduces the name and index verbatim on the
wire (the index widened losslessly from usize to u64), and decoding that wire
node reproduces them again (narrowed without truncation). -/
theorem column_roundtrip_exact (name : String) (index : Nat) (h : index < u64Mod) :
    parse_df_physical_expr (.Column name index) = .ok (.Column name index)
    ∧ parse_grpc_physical_expr (.Column name index) = .ok (.Column name index) := by
  constructor
  · simp [parse_df_physical_expr, Nat.mod_eq_of_lt h]
  · simp [parse_grpc_physical_expr, Nat.mod_eq_of_lt h]

/-- Witness for C6 at Column { name: "name", index: 11 }. -/
theorem column_roundtrip_exact_witness :
    (11 : Nat) < u64Mod
    ∧ (parse_df_physical_expr (.Column "name" 11) = .ok (.Column "name" 11)
        ∧ parse_grpc_physical_expr (.Column "name" 11) = .ok (.Column "name" 11)) :=
  ⟨by decide, column_roundtrip_exact "name" 11 (by decide)⟩

/-- Claim C7: a wire node whose tagged union has no variant set decodes to an
EmptyPhysicalExpr error whose diagnostic carries the Debug rendering of the
offending input message; no tree node is returned. -/
theorem empty_expression_rejected :
    parse_grpc_physical_expr .empty = .error (.EmptyPhysicalExpr emptyNodeDebug) := rfl

/-- Claim C8: encoding an in-process expression whose concrete variant is
outside the closed set fails with UnsupportedDfExpr carrying the node's
Display rendering; no wire message is produced. -/
theorem unsupported_expression_rejected (display : String) :
    parse_df_physical_expr (.other display) = .error (.UnsupportedDfExpr display) := rfl

end GrpcPhysical

namespace PyRb

/-
The PyRecordBatch mapping adapter
(`src/script/src/python/ffi_types/py_recordbatch.rs`) wraps a `RecordBatch`
and exposes its columns by name or position to two Python interpreters:
`__getitem__` for the pyo3 backend and `get_item` (the `PyMappingMethods`
subscript slot) for the rustpython backend.
-/

/-- A column vector handle (`VectorRef`); the adapter only clones and wraps
it, never inspecting contents, so an abstract handle suffices. -/
abbrev VectorRef := Nat

/-- Modelled from the spec: `common_recordbatch::RecordBatch` (not under
`src/`) is a columnar batch exposing its columns as an ordered, name-keyed
sequence; here it is its ordered list of (column name, column vector)
pairs. -/
structure RecordBatch : Type where
  columns : List (String × VectorRef)

/-- Modelled from the spec: `RecordBatch::column_by_name` returns the first
column carrying the given name, or nothing when no column has that name. -/
def RecordBatch.column_by_name (rb : RecordBatch) (name : String) : Option VectorRef :=
  (rb.columns.find? (fun c => c.1 == name)).map (fun c => c.2)

/-- Modelled from the spec: `RecordBatch::column(idx)` indexes the column
sequence positionally with no bounds guard; an out-of-range index is a panic,
not a recoverable error. `none` marks the panic. -/
def RecordBatch.column (rb : RecordBatch) (idx : Nat) : Option VectorRef :=
  (rb.columns.get? idx).map (fun c => c.2)

/-- The struct `PyRecordBatch { record_batch: RecordBatch }`. -/
structure PyRecordBatch : Type where
  record_batch : RecordBatch

/-- A Python object used as a subscript key, as the adapter discriminates it:
a value extractable as a string, a value extractable as a nonnegative
machine integer (`usize`), or anything else, carrying its rendering for the
error message. -/
inductive PyKeyVal : Type where
  | str (s : String)
  | int (n : Nat)
  | other (rendering : String)

/-- The two exception classes the adapter raises: `PyKeyError` /
`vm.new_key_error` and `PyRuntimeError`. -/
inductive PyErr : Type where
  | keyError (msg : String)
  | runtimeError (msg : String)
deriving DecidableEq

/-- Outcome of a subscript call: a vector, a raised Python exception, or a
Rust panic reached through unguarded indexing. -/
inductive PyOutcome : Type where
  | ok (v : VectorRef)
  | raised (e : PyErr)
  | panicked (msg : String)
deriving DecidableEq

/-- The exception class of a raised outcome, used to compare the *kind* of
condition signalled (KeyError vs RuntimeError), ignoring the message. -/
def PyOutcome.errClass : PyOutcome → Option String
  | .raised (.keyError _) => some "KeyError"
  | .raised (.runtimeError _) => some "RuntimeError"
  | _ => none

/-- The pyo3 backend's `__getitem__`: a string key is looked up by name
(unknown name -> `PyKeyError("Column {key} not found")`); an integer key
indexes `record_batch.column(key)` unconditionally (the surrounding `Some`
means the not-found path is unreachable for integers; out of range panics
inside `column`); any other key -> `PyRuntimeError("Expect either str or
int, found {key:?}")`. -/
def PyRecordBatch.getitem (rb : PyRecordBatch) (key : PyKeyVal) : PyOutcome :=
  match key with
  | .str s =>
      match rb.record_batch.column_by_name s with
      | some v => .ok v
      | none => .raised (.keyError ("Column " ++ s ++ " not found"))
  | .int i =>
      match rb.record_batch.column i with
      | some v => .ok v
      | none => .panicked "index out of bounds"
  | .other r => .raised (.runtimeError ("Expect either str or int, found " ++ r))

/-- The rustpython backend's `get_item` (the mapping-protocol subscript
slot): a key convertible to `usize` indexes `record_batch.column(index)`
directly (no bounds check; out of range panics); a `PyStr` key is looked up
by name (unknown name -> `vm.new_key_error("Column {key} not found")`); any
other key -> `vm.new_key_error("Expect either str or int, found
{needle:?}")` — also a KeyError. -/
def PyRecordBatch.get_item (rb : PyRecordBatch) (needle : PyKeyVal) : PyOutcome :=
  match needle with
  | .int i =>
      match rb.record_batch.column i with
      | some v => .ok v
      | none => .panicked "index out of bounds"
  | .str s =>
      match rb.record_batch.column_by_name s with
      | some v => .ok v
      | none => .raised (.keyError ("Column " ++ s ++ " not found"))
  | .other r => .raised (.keyError ("Expect either str or int, found " ++ r))

/-- Claim C9, counterexample to the claim as stated: in the rustpython
mapping-protocol subscript `get_item`, a key of neither string nor integer
type raises a KeyError — the same exception class as the key-not-found
condition — so the type-mismatch condition is not distinct from
key-not-found there. -/
theorem type_mismatch_not_distinct_counterexample :
    (PyRecordBatch.mk (RecordBatch.mk [("a", 0)])).get_item (.other "PyFloat(3.0)")
      = .raised (.keyError "Expect either str or int, found PyFloat(3.0)")
    ∧ ((PyRecordBatch.mk (RecordBatch.mk [("a", 0)])).get_item
          (.other "PyFloat(3.0)")).errClass
      = ((PyRecordBatch.mk (RecordBatch.mk [("a", 0)])).get_item (.str "zzz")).errClass :=
  ⟨rfl, rfl⟩

/-- Claim C9 as amended: an unknown string name raises a key-not-found
KeyError in both backends; a key of neither string nor integer type raises,
in the pyo3 `__getitem__`, a RuntimeError (an exception class distinct from
KeyError), but in the rustpython `get_item` a KeyError whose "Expect either
str or int" message differs from the key-not-found message while its class
is the same KeyError. -/
theorem subscript_error_conditions (rb : PyRecordBatch) (s r : String)
    (h : rb.record_batch.column_by_name s = none) :
    rb.getitem (.str s) = .raised (.keyError ("Column " ++ s ++ " not found"))
    ∧ rb.get_item (.str s) = .raised (.keyError ("Column " ++ s ++ " not found"))
    ∧ rb.getitem (.other r)
        = .raised (.runtimeError ("Expect either str or int, found " ++ r))
    ∧ rb.get_item (.other r)
        = .raised (.keyError ("Expect either str or int, found " ++ r))
    ∧ (rb.getitem (.other r)).errClass ≠ (rb.getitem (.str s)).errClass
    ∧ (rb.get_item (.other r)).errClass = (rb.get_item (.str s)).errClass := by
  refine ⟨?_, ?_, ?_, ?_, ?_, ?_⟩ <;>
    simp [PyRecordBatch.getitem, PyRecordBatch.get_item, PyOutcome.errClass, h]

/-- Witness for the amended C9 on a one-column batch with the unknown name
"zzz" and a non-string non-integer key. -/
theorem subscript_error_conditions_witness :
    (PyRecordBatch.mk (RecordBatch.mk [("a", 0)])).record_batch.column_by_name "zzz"
        = none
    ∧ ((PyRecordBatch.mk (RecordBatch.mk [("a", 0)])).getitem (.str "zzz")
          = .raised (.keyError ("Column " ++ "zzz" ++ " not found"))
        ∧ (PyRecordBatch.mk (RecordBatch.mk [("a", 0)])).get_item (.str "zzz")
          = .raised (.keyError ("Column " ++ "zzz" ++ " not found"))
        ∧ (PyRecordBatch.mk (RecordBatch.mk [("a", 0)])).getitem (.other "PyList")
          = .raised (.runtimeError ("Expect either str or int, found " ++ "PyList"))
        ∧ (PyRecordBatch.mk (RecordBatch.mk [("a", 0)])).get_item (.other "PyList")
          = .raised (.keyError ("Expect either str or int, found " ++ "PyList"))
        ∧ ((PyRecordBatch.mk (RecordBatch.mk [("a", 0)])).getitem (.other "PyList")).errClass
          ≠ ((PyRecordBatch.mk (RecordBatch.mk [("a", 0)])).getitem (.str "zzz")).errClass
        ∧ ((PyRecordBatch.mk (RecordBatch.mk [("a", 0)])).get_item (.other "PyList")).errClass
          = ((PyRecordBatch.mk (RecordBatch.mk [("a", 0)])).get_item (.str "zzz")).errClass) :=
  ⟨rfl, subscript_error_conditions (PyRecordBatch.mk (RecordBatch.mk [("a", 0)]))
    "zzz" "PyList" rfl⟩

/-- Claim C10: with an integer key, neither subscript path performs a bounds
check before indexing into the columns: an index at or beyond the number of
columns is never reported as a key-not-found condition (unlike an unknown
string name) — the unguarded indexing is reached and panics. -/
theorem int_key_unchecked_indexing (rb : PyRecordBatch) (i : Nat)
    (h : rb.record_batch.columns.length ≤ i) :
    rb.get_item (.int i) = .panicked "index out of bounds"
    ∧ rb.getitem (.int i) = .panicked "index out of bounds"
    ∧ (rb.get_item (.int i)).errClass = none
    ∧ (rb.getitem (.int i)).errClass = none := by
  have hcol : rb.record_batch.column i = none := by
    rw [RecordBatch.column, List.get?_eq_none.mpr h]
    rfl
  refine ⟨?_, ?_, ?_, ?_⟩ <;>
    simp [PyRecordBatch.get_item, PyRecordBatch.getitem, PyOutcome.errClass, hcol]

/-- Witness for C10: a one-column batch subscripted at integer index 5. -/
theorem int_key_unchecked_indexing_witness :
    (PyRecordBatch.mk (RecordBatch.mk [("a", 0)])).record_batch.columns.length ≤ 5
    ∧ ((PyRecordBatch.mk (RecordBatch.mk [("a", 0)])).get_item (.int 5)
          = .panicked "index out of bounds"
        ∧ (PyRecordBatch.mk (RecordBatch.mk [("a", 0)])).getitem (.int 5)
          = .panicked "index out of bounds"
        ∧ ((PyRecordBatch.mk (RecordBatch.mk [("a", 0)])).get_item (.int 5)).errClass = none
        ∧ ((PyRecordBatch.mk (RecordBatch.mk [("a", 0)])).getitem (.int 5)).errClass = none) :=
  ⟨by decide, int_key_unchecked_indexing (PyRecordBatch.mk (RecordBatch.mk [("a", 0)]))
    5 (by decide)⟩

end PyRb
